import Mathlib

/-!
Verification development for the document-compliance checker.

This file gives a shallow embedding of the core logic of the repository:
the rule evaluators, classifier and constants of adgm_checklist.py, the
aggregation and annotated-document generation of docx_utils.py, and the
batch-processing loops of app.py, together with theorems about them.

Python strings are modelled as Lean String values; substring tests,
ASCII lower-casing, whitespace word-splitting and joining are modelled
by the executable helpers below.
-/

namespace ADGM

/-- Single-quote character (U+0027), used to build the strings of the
source that contain quotes. -/
def apos : String := String.singleton (Char.ofNat 39)

/-- listStartsWith a b is true when a is an initial segment of b. -/
def listStartsWith : List Char → List Char → Bool
  | [], _ => true
  | _ :: _, [] => false
  | a :: as, b :: bs => a == b && listStartsWith as bs

/-- Contiguous containment of a character list in another; the empty
needle is contained in everything, as in Python. -/
def listContains (needle : List Char) : List Char → Bool
  | [] => needle.isEmpty
  | c :: cs => listStartsWith needle (c :: cs) || listContains needle cs

/-- Model of the Python expression needle in haystack on strings. -/
def containsSubstr (needle haystack : String) : Bool :=
  listContains needle.data haystack.data

/-- Model of Python str.lower: ASCII case folding, which is exact for
the ASCII keyword sets the source uses. -/
def pyLower (s : String) : String := String.mk (s.data.map Char.toLower)

/-- Helper for wordCount: counts maximal runs of non-whitespace
characters; the Boolean records whether we are inside a word. -/
def wordCountAux : Bool → List Char → Nat
  | _, [] => 0
  | inWord, c :: cs =>
    if c.isWhitespace then wordCountAux false cs
    else (if inWord then 0 else 1) + wordCountAux true cs

/-- Model of the Python expression len(s.split()): the number of
maximal whitespace-separated words of s. -/
def wordCount (s : String) : Nat := wordCountAux false s.data

/-- Model of the Python expression chr(10).join(paragraphs), the
newline join used by detect_missing_signature and app.py. -/
def joinNl : List String → String
  | [] => ""
  | [s] => s
  | s :: rest => s ++ "\n" ++ joinNl rest

/-- COMPANY_INCORPORATION_CHECKLIST from adgm_checklist.py. -/
def COMPANY_INCORPORATION_CHECKLIST : List String :=
  ["Articles of Association",
   "Memorandum of Association",
   "Board Resolution Template",
   "Incorporation Application Form",
   "Register of Members and Directors",
   "UBO Declaration Form"]

/-- ADGM_CITATIONS from adgm_checklist.py, as an association list. -/
def ADGM_CITATIONS : List (String × String) :=
  [("companies_regulation_jurisdiction", "ADGM Companies Regulations 2020, Art. 6"),
   ("ubo_regulation", "ADGM UBO Rules (example placeholder)")]

/-- An issue record as produced by the three rule evaluators of
adgm_checklist.py (the Python dicts with keys issue, severity,
suggestion and, for the jurisdiction rule, citation_key; a missing
citation_key is modelled as none, matching dict.get). -/
structure RuleIssue where
  issue : String
  severity : String
  suggestion : Option String
  citation_key : Option String
deriving Repr, DecidableEq

/-- An aggregated issue record as produced by summarize_issues in
docx_utils.py; the Python key called section is the field sectionRef. -/
structure Issue where
  document : String
  sectionRef : String
  issue : String
  severity : String
  suggestion : Option String
  citation_key : Option String
deriving Repr, DecidableEq

/-- The keyword cascade of detect_doc_type_by_text on the already
lower-cased text (the Python local variable txt). The first Python
condition parses as an or of a lone test with an and of two tests, by
Python operator precedence. -/
def detectByKeywords (txt : String) : String :=
  if containsSubstr "articles of association" txt
      || (containsSubstr "article" txt && containsSubstr "association" txt) then
    "Articles of Association"
  else if containsSubstr "memorandum of association" txt || containsSubstr "memorandum" txt then
    "Memorandum of Association"
  else if containsSubstr "board resolution" txt then
    "Board Resolution Template"
  else if containsSubstr "register of members" txt || containsSubstr "register of directors" txt then
    "Register of Members and Directors"
  else if containsSubstr "ubo" txt || containsSubstr "ultimate beneficial owner" txt then
    "UBO Declaration Form"
  else if containsSubstr "application for incorporation" txt
      || containsSubstr "incorporation application" txt then
    "Incorporation Application Form"
  else if containsSubstr "agreement" txt then
    "Commercial Agreement"
  else
    "Unknown"

/-- detect_doc_type_by_text from adgm_checklist.py, lines 21 to 38. -/
def detect_doc_type_by_text (text : String) : String :=
  detectByKeywords (pyLower text)

/-- check_jurisdiction_paragraph from adgm_checklist.py, lines 41 to 59:
two independent substring checks on the lower-cased paragraph, each
appending one issue. -/
def check_jurisdiction_paragraph (paragraph_text : String) : List RuleIssue :=
  (if containsSubstr "u.a.e federal courts" (pyLower paragraph_text)
      || containsSubstr "federal courts of the uae" (pyLower paragraph_text) then
    [⟨"References UAE Federal Courts instead of ADGM jurisdiction.", "High",
      some "Replace jurisdiction clause to reference ADGM Courts/Jurisdiction.",
      some "companies_regulation_jurisdiction"⟩]
  else []) ++
  (if !containsSubstr "adgm" (pyLower paragraph_text)
      && (containsSubstr "jurisdiction" (pyLower paragraph_text)
          || containsSubstr "governing law" (pyLower paragraph_text)) then
    [⟨"Jurisdiction clause does not explicitly reference ADGM.", "Medium",
      some ("Update jurisdiction/governing law clause to specify " ++ apos ++ "ADGM" ++ apos ++ "."),
      some "companies_regulation_jurisdiction"⟩]
  else [])

/-- The lower-cased newline join of the last ten paragraphs, the value
the Python variable joined takes in detect_missing_signature. -/
def sigTail (paragraphs : List String) : String :=
  pyLower (joinNl (paragraphs.drop (paragraphs.length - 10)))

/-- detect_missing_signature from adgm_checklist.py, lines 61 to 70. -/
def detect_missing_signature (paragraphs : List String) : List RuleIssue :=
  if containsSubstr "signature" (sigTail paragraphs) = false
      ∧ containsSubstr "signed" (sigTail paragraphs) = false
      ∧ containsSubstr "authorized signatory" (sigTail paragraphs) = false then
    [⟨"No signature block or signatory section detected near end of document.", "High",
      some "Add signatory block with name, designation and date.", none⟩]
  else []

/-- The ordered marker list of detect_ambiguous_language. -/
def ambig_markers : List String :=
  ["may", "best efforts", "endeavour to", "possibly", "subject to", "to the extent possible"]

/-- The interpolated description string of the ambiguity issue. -/
def ambigDescr (marker : String) : String :=
  "Ambiguous/non-binding language found (" ++ apos ++ marker ++ apos ++ ")"

/-- The single issue detect_ambiguous_language builds for a marker. -/
def mkAmbigIssue (marker : String) : RuleIssue :=
  ⟨ambigDescr marker, "Low",
   some "Consider replacing ambiguous phrasing with clear, binding obligations.", none⟩

/-- The marker loop of detect_ambiguous_language: first marker whose
substring test and the word-count bound both pass wins. -/
def ambigScan (lower : String) : List String → List RuleIssue
  | [] => []
  | m :: ms =>
    if containsSubstr m lower = true ∧ wordCount lower < 200 then [mkAmbigIssue m]
    else ambigScan lower ms

/-- detect_ambiguous_language from adgm_checklist.py, lines 72 to 83. -/
def detect_ambiguous_language (paragraph_text : String) : List RuleIssue :=
  ambigScan (pyLower paragraph_text) ambig_markers

/-- The record summarize_issues builds from a jurisdiction rule issue:
document, a per-paragraph section string, and the fields of the rule
issue including its citation key. -/
def wrapPara (filename : String) (n : Nat) (ji : RuleIssue) : Issue :=
  ⟨filename, "Paragraph " ++ toString n, ji.issue, ji.severity, ji.suggestion, ji.citation_key⟩

/-- The record summarize_issues builds from an ambiguity rule issue;
the Python dict omits the citation_key key. -/
def wrapParaNoCite (filename : String) (n : Nat) (ai : RuleIssue) : Issue :=
  ⟨filename, "Paragraph " ++ toString n, ai.issue, ai.severity, ai.suggestion, none⟩

/-- The record summarize_issues builds from the missing-signature rule
issue, with the fixed section sentinel. -/
def wrapEnd (filename : String) (m : RuleIssue) : Issue :=
  ⟨filename, "End of Document", m.issue, m.severity, m.suggestion, none⟩

/-- The per-paragraph loop of summarize_issues, docx_utils.py lines 33
to 60: paragraphs whose text is entirely whitespace are skipped (the
Python test len(p.strip()) == 0), otherwise the jurisdiction issues and
then the ambiguity issues of the paragraph are appended, tagged with
the one-based paragraph number. -/
def summarizeMain (paragraphs : List String) (filename : String) : List Issue :=
  (paragraphs.enum.map (fun ip =>
    if ip.2.data.all Char.isWhitespace then []
    else
      (check_jurisdiction_paragraph ip.2).map (wrapPara filename (ip.1 + 1)) ++
      (detect_ambiguous_language ip.2).map (wrapParaNoCite filename (ip.1 + 1)))).flatten

/-- summarize_issues from docx_utils.py, lines 18 to 75: the
per-paragraph loop followed by the missing-signature block. -/
def summarize_issues (paragraphs : List String) (filename : String) : List Issue :=
  summarizeMain paragraphs filename ++
    (detect_missing_signature paragraphs).map (wrapEnd filename)

/-- Abstract content element of a generated document: a plain text
paragraph (add_paragraph, including the issue-block paragraphs), a page
break (add_page_break) or a heading paragraph (add_heading). -/
inductive DocxElement where
  | para : String → DocxElement
  | pageBreak : DocxElement
  | heading : String → DocxElement
deriving Repr, DecidableEq

/-- The heading text create_reviewed_docx adds. -/
def reviewHeading : String := "Automated Review Comments / Issues"

/-- The block of paragraphs create_reviewed_docx appends for one issue
(docx_utils.py lines 92 to 100): the bold header run, the issue line,
and the optional suggestion and citation lines. -/
def issueBlock (idx : Nat) (iss : Issue) : List DocxElement :=
  [DocxElement.para ("[" ++ toString idx ++ "] Document: " ++ iss.document
      ++ " | Section: " ++ iss.sectionRef),
   DocxElement.para ("Issue: " ++ iss.issue)] ++
  (match iss.suggestion with
   | some s => [DocxElement.para ("Suggestion: " ++ s)]
   | none => []) ++
  (match iss.citation_key with
   | some k => [DocxElement.para ("Citation: " ++ k)]
   | none => [])

/-- The enumerate(issues, 1) loop of create_reviewed_docx. -/
def issueBlocks : Nat → List Issue → List DocxElement
  | _, [] => []
  | idx, iss :: rest => issueBlock idx iss ++ issueBlocks (idx + 1) rest

/-- create_reviewed_docx from docx_utils.py, lines 77 to 101, modelled
on document content: every source paragraph text is copied in order,
then a page break element, the fixed heading, and one block per issue. -/
def create_reviewed_docx (srcParagraphs : List String) (issues : List Issue) : List DocxElement :=
  srcParagraphs.map DocxElement.para ++
    [DocxElement.pageBreak, DocxElement.heading reviewHeading] ++
    issueBlocks 1 issues

/-- True of the text-bearing paragraph elements (plain paragraphs and
heading paragraphs); a page break is a separate break element in this
content model. -/
def isParagraphElement : DocxElement → Bool
  | DocxElement.para _ => true
  | DocxElement.heading _ => true
  | DocxElement.pageBreak => false

/-- Number of text-bearing paragraph elements of a generated document. -/
def paragraphCount (d : List DocxElement) : Nat :=
  (d.filter isParagraphElement).length

/-- A failed read of a source document (python-docx raising from
Document(path) inside extract_docx_paragraphs). -/
structure ReadError where
  msg : String
deriving Repr, DecidableEq

/-- The per-document summary record built in app.py lines 55 to 60. -/
structure DocSummary where
  filename : String
  detected_type : String
  paragraph_count : Nat
deriving Repr, DecidableEq

/-- The parsing and classification loop of app.py, lines 52 to 61.
Each input is a filename together with the outcome of
extract_docx_paragraphs on it (docx_utils.py lines 10 to 16 call
Document(path) with no error handling, so an unreadable file is a
ReadError). Neither the loop nor extract_docx_paragraphs has a
try/except, so a raised error propagates and ends the whole run: this
is the monadic bind on Except. -/
def parseDocsLoop : List (String × Except ReadError (List String)) →
    Except ReadError (List DocSummary)
  | [] => Except.ok []
  | d :: rest => do
    let paras ← d.2
    let s : DocSummary := ⟨d.1, detect_doc_type_by_text (joinNl paras), paras.length⟩
    let others ← parseDocsLoop rest
    pure (s :: others)

/-- The present and missing lists of app.py lines 75 to 77: two
comprehensions filtering the required list by membership of each
required label in the detected labels. -/
def checklist_verify (required detected : List String) : List String × List String :=
  (required.filter (fun r => detected.contains r),
   required.filter (fun r => !detected.contains r))

/-- The issue-gathering loop of app.py lines 92 to 97: the issues of
every document, in upload order, concatenated into one list. Each
document is a filename paired with its extracted paragraphs. -/
def batchIssues (docs : List (String × List String)) : List Issue :=
  (docs.map (fun d => summarize_issues d.2 d.1)).flatten

/-- The export loop of app.py lines 125 to 128: every document gets a
reviewed copy produced by create_reviewed_docx from its own paragraphs
and the accumulated batch-wide issue list all_issues. -/
def exportReviewed (docs : List (String × List String)) : List (List DocxElement) :=
  docs.map (fun d => create_reviewed_docx d.2 (batchIssues docs))

/-- The eight document labels detect_doc_type_by_text can return. -/
def DOC_LABELS : List String :=
  ["Articles of Association", "Memorandum of Association", "Board Resolution Template",
   "Incorporation Application Form", "Register of Members and Directors",
   "UBO Declaration Form", "Commercial Agreement", "Unknown"]

/-- True when at least one of the six ordered keyword predicates of
detect_doc_type_by_text matches the lower-cased text. -/
def keywordMatched (txt : String) : Bool :=
  (containsSubstr "articles of association" txt
    || (containsSubstr "article" txt && containsSubstr "association" txt))
  || (containsSubstr "memorandum of association" txt || containsSubstr "memorandum" txt)
  || containsSubstr "board resolution" txt
  || (containsSubstr "register of members" txt || containsSubstr "register of directors" txt)
  || (containsSubstr "ubo" txt || containsSubstr "ultimate beneficial owner" txt)
  || (containsSubstr "application for incorporation" txt
    || containsSubstr "incorporation application" txt)

/-- First marker of the list that occurs in the lower-cased paragraph,
in list order. -/
def firstMatch (lower : String) : List String → Option String
  | [] => none
  | m :: ms => if containsSubstr m lower = true then some m else firstMatch lower ms

/-- The example document of the specification: three paragraphs, a
federal-courts governing clause, a non-binding obligation, a closing
line, no signature block. -/
def examplePs : List String :=
  ["This agreement is governed by the federal courts of the UAE.",
   "The parties shall endeavour to perform in good faith.",
   "End of document."]

/-- The severity strings the data model allows. -/
def validSeverity (s : String) : Prop := s = "High" ∨ s = "Medium" ∨ s = "Low"

/-- A citation key, when present, is a key of ADGM_CITATIONS. -/
def validCitation : Option String → Prop
  | none => True
  | some k => k ∈ ADGM_CITATIONS.map Prod.fst

/-- The data-model invariant for a rule-evaluator issue. -/
def ruleIssueInv (j : RuleIssue) : Prop :=
  j.issue ≠ "" ∧ validSeverity j.severity ∧ validCitation j.citation_key

/-- The data-model invariant for an aggregated issue. -/
def issueInv (i : Issue) : Prop :=
  i.issue ≠ "" ∧ validSeverity i.severity ∧ validCitation i.citation_key

lemma check_jurisdiction_length_le (q : String) :
    (check_jurisdiction_paragraph q).length ≤ 2 := by
  unfold check_jurisdiction_paragraph
  split <;> split <;> simp

lemma mem_check_jurisdiction {p : String} {j : RuleIssue}
    (h : j ∈ check_jurisdiction_paragraph p) :
    j = ⟨"References UAE Federal Courts instead of ADGM jurisdiction.", "High",
         some "Replace jurisdiction clause to reference ADGM Courts/Jurisdiction.",
         some "companies_regulation_jurisdiction"⟩ ∨
    j = ⟨"Jurisdiction clause does not explicitly reference ADGM.", "Medium",
         some ("Update jurisdiction/governing law clause to specify " ++ apos ++ "ADGM" ++ apos ++ "."),
         some "companies_regulation_jurisdiction"⟩ := by
  unfold check_jurisdiction_paragraph at h
  split at h <;> split at h <;> simp at h <;> tauto

lemma ambigScan_length_le (lower : String) (ms : List String) :
    (ambigScan lower ms).length ≤ 1 := by
  induction ms with
  | nil => simp [ambigScan]
  | cons m ms ih =>
    simp only [ambigScan]
    split
    · simp
    · exact ih

lemma ambigScan_ne_nil_iff (lower : String) (ms : List String) :
    ambigScan lower ms ≠ [] ↔
      ∃ m ∈ ms, containsSubstr m lower = true ∧ wordCount lower < 200 := by
  induction ms with
  | nil => simp [ambigScan]
  | cons m ms ih =>
    simp only [ambigScan]
    split
    · rename_i h
      constructor
      · intro _
        exact ⟨m, List.mem_cons_self m ms, h⟩
      · intro _
        exact List.cons_ne_nil _ _
    · rename_i h
      rw [ih]
      constructor
      · rintro ⟨x, hx, hc⟩
        exact ⟨x, List.mem_cons_of_mem m hx, hc⟩
      · rintro ⟨x, hx, hc⟩
        rcases List.mem_cons.mp hx with rfl | hx2
        · exact absurd hc h
        · exact ⟨x, hx2, hc⟩

lemma ambigScan_firstMatch (lower : String) (ms : List String) (m : String)
    (hf : firstMatch lower ms = some m) (hwc : wordCount lower < 200) :
    ambigScan lower ms = [mkAmbigIssue m] := by
  induction ms with
  | nil => simp [firstMatch] at hf
  | cons a ms ih =>
    by_cases h : containsSubstr a lower = true
    · simp only [firstMatch, if_pos h] at hf
      obtain rfl : a = m := Option.some.inj hf
      simp only [ambigScan, if_pos (And.intro h hwc)]
    · simp only [firstMatch, if_neg h] at hf
      have hcond : ¬(containsSubstr a lower = true ∧ wordCount lower < 200) :=
        fun hc => h hc.1
      simp only [ambigScan, if_neg hcond]
      exact ih hf

lemma mem_ambigScan {lower : String} {ms : List String} {j : RuleIssue}
    (h : j ∈ ambigScan lower ms) : ∃ m ∈ ms, j = mkAmbigIssue m := by
  induction ms with
  | nil => simp [ambigScan] at h
  | cons a ms ih =>
    simp only [ambigScan] at h
    split at h
    · simp at h
      exact ⟨a, List.mem_cons_self a ms, h⟩
    · obtain ⟨m, hm, hj⟩ := ih h
      exact ⟨m, List.mem_cons_of_mem a hm, hj⟩

lemma mem_detect_missing_signature {ps : List String} {j : RuleIssue}
    (h : j ∈ detect_missing_signature ps) :
    j = ⟨"No signature block or signatory section detected near end of document.", "High",
         some "Add signatory block with name, designation and date.", none⟩ := by
  unfold detect_missing_signature at h
  split at h
  · simpa using h
  · simp at h

lemma contains_iff_mem (l : List String) (a : String) :
    l.contains a = true ↔ a ∈ l := by
  simp [List.contains, List.elem_iff]

lemma drop_length_append (l₁ l₂ : List DocxElement) :
    (l₁ ++ l₂).drop l₁.length = l₂ := by
  induction l₁ with
  | nil => rfl
  | cons a t ih => simp [ih]

lemma filter_para_map (ps : List String) :
    (ps.map DocxElement.para).filter isParagraphElement = ps.map DocxElement.para := by
  induction ps with
  | nil => rfl
  | cons p ps ih => simp [isParagraphElement, ih]

/-- Claim C1: on the example document the full per-document pipeline is
claimed to yield exactly 4 issues; it in fact yields 3, because the
first paragraph contains neither the word jurisdiction nor the phrase
governing law, so the Medium missing-ADGM sub-check does not fire. -/
theorem pipeline_example_not_four_issues :
    (summarize_issues examplePs "docx").length ≠ 4 := by decide

/-- Claim C1 (amended): the full per-document pipeline on the example
document yields exactly 3 issues: the High federal-courts jurisdiction
issue on paragraph 1, the Low ambiguity issue naming the marker
endeavour to on paragraph 2, and the High missing-signature issue. -/
theorem pipeline_example_three_issues :
    summarize_issues examplePs "docx" =
      [⟨"docx", "Paragraph 1", "References UAE Federal Courts instead of ADGM jurisdiction.",
        "High", some "Replace jurisdiction clause to reference ADGM Courts/Jurisdiction.",
        some "companies_regulation_jurisdiction"⟩,
       ⟨"docx", "Paragraph 2", ambigDescr "endeavour to", "Low",
        some "Consider replacing ambiguous phrasing with clear, binding obligations.", none⟩,
       ⟨"docx", "End of Document",
        "No signature block or signatory section detected near end of document.", "High",
        some "Add signatory block with name, designation and date.", none⟩] := by decide

/-- Claim C2: the specification requires that a ReadError on one
document of a batch aborts only that document while the rest of the
batch is still processed and reported. The code has no error handling:
extract_docx_paragraphs calls Document(path) bare and the parsing loop
of app.py has no try/except, so the first unreadable document aborts
the whole batch and no summary is produced for the remaining readable
documents. -/
theorem readerror_aborts_whole_batch :
    parseDocsLoop
      [("bad.docx", Except.error ⟨"cannot open file"⟩),
       ("good.docx", Except.ok ["Board resolution", "Signature: X"])] =
      Except.error ⟨"cannot open file"⟩ := rfl

/-- Claim C3: the two sub-checks of the jurisdiction rule are
independent: a paragraph whose lower-cased text contains one of the two
federal-courts phrasings, contains jurisdiction or governing law, and
does not contain adgm gets exactly two issues, one High then one
Medium; and every paragraph gets at most two issues from this rule. -/
theorem jurisdiction_subchecks_independent (p : String)
    (h1 : (containsSubstr "u.a.e federal courts" (pyLower p)
           || containsSubstr "federal courts of the uae" (pyLower p)) = true)
    (h2 : containsSubstr "adgm" (pyLower p) = false)
    (h3 : (containsSubstr "jurisdiction" (pyLower p)
           || containsSubstr "governing law" (pyLower p)) = true) :
    (check_jurisdiction_paragraph p).length = 2 ∧
    (check_jurisdiction_paragraph p).map RuleIssue.severity = ["High", "Medium"] ∧
    ∀ q : String, (check_jurisdiction_paragraph q).length ≤ 2 := by
  refine ⟨?_, ?_, check_jurisdiction_length_le⟩ <;>
    simp [check_jurisdiction_paragraph, h1, h2, h3]

/-- Witness for claim C3 at a concrete paragraph satisfying all three
hypotheses. -/
theorem jurisdiction_subchecks_independent_w :
    ((containsSubstr "u.a.e federal courts"
        (pyLower "Jurisdiction: the federal courts of the UAE.")
      || containsSubstr "federal courts of the uae"
        (pyLower "Jurisdiction: the federal courts of the UAE.")) = true) ∧
    (containsSubstr "adgm" (pyLower "Jurisdiction: the federal courts of the UAE.") = false) ∧
    ((containsSubstr "jurisdiction" (pyLower "Jurisdiction: the federal courts of the UAE.")
      || containsSubstr "governing law"
        (pyLower "Jurisdiction: the federal courts of the UAE.")) = true) ∧
    ((check_jurisdiction_paragraph "Jurisdiction: the federal courts of the UAE.").length = 2 ∧
     (check_jurisdiction_paragraph "Jurisdiction: the federal courts of the UAE.").map
        RuleIssue.severity = ["High", "Medium"] ∧
     ∀ q : String, (check_jurisdiction_paragraph q).length ≤ 2) :=
  ⟨by decide, by decide, by decide,
   jurisdiction_subchecks_independent "Jurisdiction: the federal courts of the UAE."
     (by decide) (by decide) (by decide)⟩

/-- Claim C4: the ambiguity rule emits at most one issue per paragraph;
it emits one exactly when the word count is below 200 and the
lower-cased text contains at least one marker of the ordered marker
list; and when the word-count bound holds the emitted issue is the Low
issue naming the first marker of the list occurring in the paragraph. -/
theorem ambiguity_rule_spec (p : String) :
    (detect_ambiguous_language p).length ≤ 1 ∧
    (detect_ambiguous_language p ≠ [] ↔
      (wordCount (pyLower p) < 200 ∧
        ∃ m ∈ ambig_markers, containsSubstr m (pyLower p) = true)) ∧
    (∀ m, firstMatch (pyLower p) ambig_markers = some m → wordCount (pyLower p) < 200 →
      detect_ambiguous_language p = [mkAmbigIssue m]) ∧
    (∀ m, (mkAmbigIssue m).severity = "Low" ∧ (mkAmbigIssue m).issue = ambigDescr m) := by
  refine ⟨ambigScan_length_le _ _, ?_, ?_, fun m => ⟨rfl, rfl⟩⟩
  · rw [detect_ambiguous_language, ambigScan_ne_nil_iff]
    constructor
    · rintro ⟨m, hm, hc, hw⟩
      exact ⟨hw, m, hm, hc⟩
    · rintro ⟨hw, m, hm, hc⟩
      exact ⟨m, hm, hc, hw⟩
  · intro m hf hwc
    exact ambigScan_firstMatch _ _ _ hf hwc

/-- Witness for claim C4: the example non-binding paragraph produces
exactly the Low issue naming endeavour to, the first matching marker. -/
theorem ambiguity_rule_spec_w :
    firstMatch (pyLower "The parties shall endeavour to perform in good faith.")
      ambig_markers = some "endeavour to" ∧
    wordCount (pyLower "The parties shall endeavour to perform in good faith.") < 200 ∧
    detect_ambiguous_language "The parties shall endeavour to perform in good faith." =
      [mkAmbigIssue "endeavour to"] :=
  ⟨by decide, by decide,
   (ambiguity_rule_spec "The parties shall endeavour to perform in good faith.").2.2.1
     "endeavour to" (by decide) (by decide)⟩

/-- Claim C5: the missing-signature rule emits at most one issue per
document; it emits one exactly when none of the three phrases occurs in
the lower-cased newline join of the last ten paragraphs; the
aggregation appends its issues after all per-paragraph issues, wrapped
with the section sentinel End of Document and severity High. -/
theorem missing_signature_spec (paragraphs : List String) (filename : String) :
    (detect_missing_signature paragraphs).length ≤ 1 ∧
    (detect_missing_signature paragraphs ≠ [] ↔
      (containsSubstr "signature" (sigTail paragraphs) = false
        ∧ containsSubstr "signed" (sigTail paragraphs) = false
        ∧ containsSubstr "authorized signatory" (sigTail paragraphs) = false)) ∧
    summarize_issues paragraphs filename =
      summarizeMain paragraphs filename ++
        (detect_missing_signature paragraphs).map (wrapEnd filename) ∧
    (∀ i ∈ (detect_missing_signature paragraphs).map (wrapEnd filename),
      i.severity = "High" ∧ i.sectionRef = "End of Document") := by
  refine ⟨?_, ?_, rfl, ?_⟩
  · unfold detect_missing_signature
    split <;> simp
  · by_cases H : (containsSubstr "signature" (sigTail paragraphs) = false
        ∧ containsSubstr "signed" (sigTail paragraphs) = false
        ∧ containsSubstr "authorized signatory" (sigTail paragraphs) = false)
    · unfold detect_missing_signature
      rw [if_pos H]
      constructor
      · intro _
        exact H
      · intro _
        exact List.cons_ne_nil _ _
    · unfold detect_missing_signature
      rw [if_neg H]
      constructor
      · intro h
        exact absurd rfl h
      · intro h
        exact absurd h H
  · intro i hi
    obtain ⟨m, hm, rfl⟩ := List.mem_map.mp hi
    have := mem_detect_missing_signature hm
    subst this
    exact ⟨rfl, rfl⟩

/-- Witness for claim C5: a document whose tail lacks all three
signature phrases makes the rule fire. -/
theorem missing_signature_spec_w :
    detect_missing_signature ["Hello there.", "End of document."] ≠ [] :=
  ((missing_signature_spec ["Hello there.", "End of document."] "f").2.1).mpr (by decide)

/-- Claim C6: checklist verification partitions the required list: the
present and missing lists are disjoint, together they cover exactly the
required list, both are sublists of the required list (hence preserve
its order), and a required label is present exactly when it is detected
at least once, so duplicate detections count as one presence. -/
theorem checklist_partition (required detected : List String) :
    (∀ r, ¬(r ∈ (checklist_verify required detected).1 ∧
            r ∈ (checklist_verify required detected).2)) ∧
    (∀ r, r ∈ required ↔
      (r ∈ (checklist_verify required detected).1 ∨
       r ∈ (checklist_verify required detected).2)) ∧
    (checklist_verify required detected).1.Sublist required ∧
    (checklist_verify required detected).2.Sublist required ∧
    (∀ r, r ∈ (checklist_verify required detected).1 ↔ (r ∈ required ∧ r ∈ detected)) := by
  refine ⟨?_, ?_, List.filter_sublist _, List.filter_sublist _, ?_⟩
  · rintro r ⟨h1, h2⟩
    have m1 := List.mem_filter.mp h1
    have m2 := List.mem_filter.mp h2
    rw [m1.2] at m2
    simp at m2
  · intro r
    constructor
    · intro hr
      by_cases hd : detected.contains r = true
      · exact Or.inl (List.mem_filter.mpr ⟨hr, hd⟩)
      · refine Or.inr (List.mem_filter.mpr ⟨hr, ?_⟩)
        cases hb : detected.contains r
        · rfl
        · exact absurd hb hd
    · rintro (hp | hp)
      · exact (List.mem_filter.mp hp).1
      · exact (List.mem_filter.mp hp).1
  · intro r
    constructor
    · intro hp
      have m := List.mem_filter.mp hp
      exact ⟨m.1, (contains_iff_mem detected r).mp m.2⟩
    · rintro ⟨hr, hd⟩
      exact List.mem_filter.mpr ⟨hr, (contains_iff_mem detected r).mpr hd⟩

/-- Witness for claim C6 on the example of the specification: required
A, B, C with only B detected twice. -/
theorem checklist_partition_w :
    "B" ∈ (checklist_verify ["A", "B", "C"] ["B", "B"]).1 ↔
      ("B" ∈ ["A", "B", "C"] ∧ "B" ∈ ["B", "B"]) :=
  (checklist_partition ["A", "B", "C"] ["B", "B"]).2.2.2.2 "B"

/-- Claim C7: document classification is a total function into the
eight labels; the ordered keyword cascade is first-match-wins, and when
no keyword predicate matches, the result is Commercial Agreement if the
lower-cased text contains agreement and Unknown otherwise. -/
theorem classifier_total_spec (text : String) :
    detect_doc_type_by_text text ∈ DOC_LABELS ∧
    (keywordMatched (pyLower text) = false →
      detect_doc_type_by_text text =
        (if containsSubstr "agreement" (pyLower text) = true then "Commercial Agreement"
         else "Unknown")) := by
  constructor
  · unfold detect_doc_type_by_text detectByKeywords
    repeat' split
    all_goals simp [DOC_LABELS]
  · intro h
    simp only [keywordMatched, Bool.or_eq_false_iff] at h
    simp [detect_doc_type_by_text, detectByKeywords, h.1, h.2]

/-- Witness for claim C7 at a text matching no keyword predicate and
lacking the token agreement. -/
theorem classifier_total_spec_w :
    keywordMatched (pyLower "hello world") = false ∧
    detect_doc_type_by_text "hello world" ∈ DOC_LABELS ∧
    detect_doc_type_by_text "hello world" =
      (if containsSubstr "agreement" (pyLower "hello world") = true then "Commercial Agreement"
       else "Unknown") :=
  ⟨by decide, (classifier_total_spec "hello world").1,
   (classifier_total_spec "hello world").2 (by decide)⟩

/-- Claim C8: annotating with an empty issue list always succeeds, even
on a document with no paragraphs, and produces every original
paragraph text verbatim in order followed by the page break and the
fixed heading, with no issue blocks; the count of text-bearing
paragraph elements is the original paragraph count plus the heading. -/
theorem annotate_no_issues (ps : List String) :
    create_reviewed_docx ps [] =
      ps.map DocxElement.para ++ [DocxElement.pageBreak, DocxElement.heading reviewHeading] ∧
    paragraphCount (create_reviewed_docx ps []) = ps.length + 1 ∧
    create_reviewed_docx [] [] = [DocxElement.pageBreak, DocxElement.heading reviewHeading] := by
  refine ⟨by simp [create_reviewed_docx, issueBlocks], ?_, rfl⟩
  simp [paragraphCount, create_reviewed_docx, issueBlocks, List.filter_append,
    filter_para_map, isParagraphElement]

lemma jurisdiction_rule_inv (p : String) :
    ∀ j ∈ check_jurisdiction_paragraph p, ruleIssueInv j := by
  intro j hj
  rcases mem_check_jurisdiction hj with rfl | rfl
  · exact ⟨by decide, Or.inl rfl, by simp [validCitation, ADGM_CITATIONS]⟩
  · exact ⟨by decide, Or.inr (Or.inl rfl), by simp [validCitation, ADGM_CITATIONS]⟩

lemma ambiguity_rule_inv (p : String) :
    ∀ j ∈ detect_ambiguous_language p, ruleIssueInv j := by
  intro j hj
  obtain ⟨m, hm, rfl⟩ := mem_ambigScan hj
  refine ⟨?_, Or.inr (Or.inr rfl), trivial⟩
  fin_cases hm <;> decide

lemma signature_rule_inv (ps : List String) :
    ∀ j ∈ detect_missing_signature ps, ruleIssueInv j := by
  intro j hj
  rw [mem_detect_missing_signature hj]
  exact ⟨by decide, Or.inl rfl, trivial⟩

lemma mem_summarizeMain {ps : List String} {f : String} {i : Issue}
    (h : i ∈ summarizeMain ps f) :
    ∃ n q, (∃ ji ∈ check_jurisdiction_paragraph q, i = wrapPara f n ji) ∨
           (∃ ai ∈ detect_ambiguous_language q, i = wrapParaNoCite f n ai) := by
  unfold summarizeMain at h
  rw [List.mem_flatten] at h
  obtain ⟨l, hl, hil⟩ := h
  rw [List.mem_map] at hl
  obtain ⟨ip, hip, rfl⟩ := hl
  by_cases hw : ip.2.data.all Char.isWhitespace = true
  · rw [if_pos hw] at hil
    simp at hil
  · rw [if_neg hw] at hil
    rw [List.mem_append] at hil
    rcases hil with hj | ha
    · obtain ⟨ji, hji, rfl⟩ := List.mem_map.mp hj
      exact ⟨ip.1 + 1, ip.2, Or.inl ⟨ji, hji, rfl⟩⟩
    · obtain ⟨ai, hai, rfl⟩ := List.mem_map.mp ha
      exact ⟨ip.1 + 1, ip.2, Or.inr ⟨ai, hai, rfl⟩⟩

/-- Claim C9: every issue produced by any of the three rule evaluators,
and every aggregated issue produced by summarize_issues, carries a
non-empty description, a severity among High, Medium and Low, and a
citation key that, when present, is a key of ADGM_CITATIONS. -/
theorem issue_invariants (p : String) (paragraphs : List String) (filename : String) :
    (∀ j ∈ check_jurisdiction_paragraph p, ruleIssueInv j) ∧
    (∀ j ∈ detect_ambiguous_language p, ruleIssueInv j) ∧
    (∀ j ∈ detect_missing_signature paragraphs, ruleIssueInv j) ∧
    (∀ i ∈ summarize_issues paragraphs filename, issueInv i) := by
  refine ⟨jurisdiction_rule_inv p, ambiguity_rule_inv p, signature_rule_inv paragraphs, ?_⟩
  intro i hi
  unfold summarize_issues at hi
  rw [List.mem_append] at hi
  rcases hi with hm | he
  · obtain ⟨n, q, hcase⟩ := mem_summarizeMain hm
    rcases hcase with ⟨ji, hji, rfl⟩ | ⟨ai, hai, rfl⟩
    · exact jurisdiction_rule_inv q ji hji
    · have hinv := ambiguity_rule_inv q ai hai
      exact ⟨hinv.1, hinv.2.1, trivial⟩
  · obtain ⟨m, hm2, rfl⟩ := List.mem_map.mp he
    have hinv := signature_rule_inv paragraphs m hm2
    exact ⟨hinv.1, hinv.2.1, trivial⟩

/-- Witness for claim C9: the High federal-courts issue produced on a
concrete paragraph satisfies the invariant. -/
theorem issue_invariants_w :
    ruleIssueInv ⟨"References UAE Federal Courts instead of ADGM jurisdiction.", "High",
      some "Replace jurisdiction clause to reference ADGM Courts/Jurisdiction.",
      some "companies_regulation_jurisdiction"⟩ :=
  (issue_invariants "governed by the federal courts of the uae" [] "f").1 _ (by decide)

/-- A concrete two-document batch used to witness the export claim. -/
def demoDocs : List (String × List String) :=
  [("a.docx", ["This agreement is subject to the federal courts of the uae law."]),
   ("b.docx", ["Signed by the authorized signatory."])]

/-- Claim C10: at export time every reviewed document of the batch is
generated from the accumulated batch-wide issue list: the element at
any position of the export output is create_reviewed_docx applied to
that document and batchIssues of the whole batch, and the part of the
reviewed document after the original paragraphs, page break and
heading renders one block per issue of the whole batch. -/
theorem export_uses_batch_issues (docs : List (String × List String)) (i : Nat)
    (h : i < docs.length) :
    (exportReviewed docs)[i]? =
      some (create_reviewed_docx (docs.get ⟨i, h⟩).2 (batchIssues docs)) ∧
    (create_reviewed_docx (docs.get ⟨i, h⟩).2 (batchIssues docs)).drop
        ((docs.get ⟨i, h⟩).2.length + 2) = issueBlocks 1 (batchIssues docs) := by
  constructor
  · simp only [exportReviewed, List.getElem?_map]
    rw [List.getElem?_eq_getElem h]
    simp [List.get_eq_getElem]
  · have hlen : ((docs.get ⟨i, h⟩).2.map DocxElement.para ++
        [DocxElement.pageBreak, DocxElement.heading reviewHeading]).length =
        (docs.get ⟨i, h⟩).2.length + 2 := by simp
    unfold create_reviewed_docx
    rw [← hlen]
    exact drop_length_append _ _

/-- Witness for claim C10 on a concrete two-document batch: the first
reviewed document renders the issues of both documents. -/
theorem export_uses_batch_issues_w :
    0 < demoDocs.length ∧
    ((exportReviewed demoDocs)[0]? =
      some (create_reviewed_docx (demoDocs.get ⟨0, by decide⟩).2 (batchIssues demoDocs)) ∧
    (create_reviewed_docx (demoDocs.get ⟨0, by decide⟩).2 (batchIssues demoDocs)).drop
        ((demoDocs.get ⟨0, by decide⟩).2.length + 2) = issueBlocks 1 (batchIssues demoDocs)) :=
  ⟨by decide, export_uses_batch_issues demoDocs 0 (by decide)⟩

end ADGM
